import Mathlib

/-!
# Verification of `PopupView` (electron-browser-shell)

Shallow embedding of `src/packages/electron-chrome-extensions/src/browser/popup.ts`
(and its near-duplicate variant `src/unnamed/part_000`): the popup lifecycle,
size-negotiation, positioning and close-policy state machine.

JavaScript numbers are modelled as `ℚ` (the code only adds, compares, and
floors them); Electron window bounds, which are integral, as `ℤ` rectangles.
Listener (un)subscription and calls on the underlying window that the state
record cannot show are modelled as an explicit effect trace (`Eff`).
-/

namespace Popup

/-- `Electron.Rectangle` as held by a window: Electron bounds are integers. -/
structure IRect where
  x : ℤ
  y : ℤ
  w : ℤ
  h : ℤ
  deriving Repr, DecidableEq

/-- `PopupAnchorRect` from popup.ts: caller-supplied, arbitrary JS numbers. -/
structure AnchorRect where
  x : ℚ
  y : ℚ
  width : ℚ
  height : ℚ
  deriving Repr, DecidableEq

/-- `Partial<Electron.Rectangle>` as consumed by `setSize`: only `width` and
`height` are read, each possibly absent (`rect.width || 0`). -/
structure PartialRect where
  width : Option ℚ
  height : Option ℚ
  deriving Repr, DecidableEq

/-- `Electron.Size` as delivered by the `preferred-size-changed` event. -/
structure Size where
  width : ℚ
  height : ℚ
  deriving Repr, DecidableEq

/-- The observable state of a `BrowserWindow` that popup.ts reads or writes:
its bounds, whether the window / its webContents object is already torn down,
whether its devtools are open, and whether `show()` has been called on it. -/
structure Window where
  bounds : IRect
  isDestroyed : Bool
  wcDestroyed : Bool
  devToolsOpened : Bool
  shown : Bool
  deriving Repr, DecidableEq

/-- The mutable fields of a `PopupView` instance (popup.ts lines 31-42). -/
structure PopupView where
  browserWindow : Option Window
  parent : Option Window
  anchorWindowBounds : Option IRect
  anchorRect : AnchorRect
  destroyed : Bool
  usingPreferredSize : Bool
  deriving Repr, DecidableEq

/-- Externally visible calls `destroy` / `maybeClose` make on collaborators,
recorded as a trace (the state record cannot show listener removal). -/
inductive Eff where
  | offParentClosed
  | closeDevTools
  | offWindowClosed
  | destroyWindow
  deriving Repr, DecidableEq

/-- `PopupView.BOUNDS` (popup.ts lines 24-29). -/
def BOUNDS : IRect := { x := 0, y := 0, w := 0, h := 0 }

def minWidth : ℚ := 25
def minHeight : ℚ := 25
def maxWidth : ℚ := 800
def maxHeight : ℚ := 600

/-- The `anchorWindowBounds` snapshot taken in the constructor (popup.ts
lines 51-52): `anchorWindow ? anchorWindow.getBounds() : parent ?
parent.getBounds() : null`. -/
def initAnchorWindowBounds (anchorWindow parent : Option Window) : Option IRect :=
  match anchorWindow with
  | some aw => some aw.bounds
  | none =>
    match parent with
    | some pw => some pw.bounds
    | none => none

/-- Constructor state initialisation (popup.ts lines 44-92): store parent,
anchor rect, take the anchor-bounds snapshot, create the hidden window. -/
def mkPopupView (anchorWindow parent : Option Window) (anchorRect : AnchorRect)
    (newWin : Window) : PopupView :=
  { browserWindow := some newWin
    parent := parent
    anchorWindowBounds := initAnchorWindowBounds anchorWindow parent
    anchorRect := anchorRect
    destroyed := false
    usingPreferredSize := false }

/-- `PopupView.setSize` (popup.ts lines 166-184): bail out unless both the
window and the parent reference are present, clamp each requested dimension
into `[25, 800] × [25, 600]`, floor to an integer, and write the result into
the window bounds keeping `x`/`y`. -/
def setSize (p : PopupView) (rect : PartialRect) : PopupView :=
  match p.browserWindow, p.parent with
  | some win, some _ =>
    let width : ℤ := Int.floor (min maxWidth (max (rect.width.getD 0) minWidth))
    let height : ℤ := Int.floor (min maxHeight (max (rect.height.getD 0) minHeight))
    { p with
        browserWindow := some { win with bounds := { win.bounds with w := width, h := height } } }
  | _, _ => p

/-- `PopupView.updatePosition` (popup.ts lines 204-223): bail out unless the
window and the anchor-bounds snapshot are present, then set the window origin
to `floor(anchorWindowBounds + anchorRect)` keeping width and height. -/
def updatePosition (p : PopupView) : PopupView :=
  match p.browserWindow, p.anchorWindowBounds with
  | some win, some ab =>
    let x : ℤ := Int.floor ((ab.x : ℚ) + p.anchorRect.x)
    let y : ℤ := Int.floor ((ab.y : ℚ) + p.anchorRect.y)
    { p with
        browserWindow := some { win with bounds := { win.bounds with x := x, y := y } } }
  | _, _ => p

/-- `PopupView.destroy` (popup.ts lines 132-160): no-op when already
destroyed; else set the flag, unsubscribe the parent `closed` listener when
the parent is live and clear the reference, then close devtools if open,
unsubscribe the window `closed` listener, destroy the window when it is live,
and clear the reference.  Returns the new state and the effect trace. -/
def destroyFn (p : PopupView) : PopupView × List Eff :=
  if p.destroyed then (p, [])
  else
    let p1 := { p with destroyed := true }
    let parentStep : PopupView × List Eff :=
      match p1.parent with
      | some par =>
        ({ p1 with parent := none },
          if par.isDestroyed then [] else [Eff.offParentClosed])
      | none => (p1, [])
    let p2 := parentStep.1
    let windowStep : PopupView × List Eff :=
      match p2.browserWindow with
      | some win =>
        if win.isDestroyed then ({ p2 with browserWindow := none }, [])
        else
          ({ p2 with browserWindow := none },
            (if !win.wcDestroyed && win.devToolsOpened then [Eff.closeDevTools]
             else []) ++ [Eff.offWindowClosed, Eff.destroyWindow])
      | none => (p2, [])
    (windowStep.1, parentStep.2 ++ windowStep.2)

/-- The devtools guard of `maybeClose` (popup.ts line 188) with JS optional
chaining semantics: `!browserWindow?.isDestroyed() &&
browserWindow?.webContents.isDevToolsOpened()` is truthy exactly when the
window reference is present, the window is not destroyed, and devtools are
open (when the reference is absent both chains yield `undefined`, so the
conjunction is falsy). -/
def devtoolsGuard (p : PopupView) : Bool :=
  match p.browserWindow with
  | some w => !w.isDestroyed && w.devToolsOpened
  | none => false

/-- `PopupView.maybeClose` (popup.ts lines 186-202): keep the popup when its
devtools are being inspected, keep it when no window of the application holds
focus (`BrowserWindow.getFocusedWindow()` is null, passed in as
`focusedWindowExists`), otherwise destroy. -/
def maybeClose (p : PopupView) (focusedWindowExists : Bool) : PopupView × List Eff :=
  if devtoolsGuard p then (p, [])
  else if !focusedWindowExists then (p, [])
  else destroyFn p

/-- `PopupView.updatePreferredSize` (popup.ts lines 268-273): set the one-way
latch, apply the notified size via `setSize`, reposition.  The handler has no
`show()` call. -/
def updatePreferredSize (p : PopupView) (size : Size) : PopupView :=
  updatePosition
    (setSize { p with usingPreferredSize := true }
      { width := some size.width, height := some size.height })

/-- The entry guard of `queryPreferredSize` (popup.ts line 227): the polling
measurement starts only when the latch is unset and the popup is live. -/
def qpsGuardPasses (p : PopupView) : Bool :=
  !p.usingPreferredSize && !p.destroyed

/-- The continuation of `queryPreferredSize` after its measurement script
resolves (popup.ts lines 262-265): re-check only `destroyed`, then apply the
measured rect and reposition. -/
def qpsResume (p : PopupView) (measured : Size) : PopupView :=
  if p.destroyed then p
  else
    updatePosition
      (setSize p { width := some measured.width, height := some measured.height })

/-- `queryPreferredSize` run without interference between its suspension
points: guard, then resume with the measurement. -/
def queryPreferredSize (p : PopupView) (measured : Size) : PopupView :=
  if qpsGuardPasses p then qpsResume p measured else p

/-- Outcome of one continuation of the `load` pipeline, up to its next
suspension point or return: the new state, whether `win.show()` was executed
on the captured window, and whether the 200 ms settle timer was awaited. -/
structure ContResult where
  state : PopupView
  calledShow : Bool
  awaitsSettle : Bool
  deriving Repr, DecidableEq

/-- The continuation of `load` after the content-presence script resolves
(popup.ts lines 111-129): destroy and return when the body has no child
nodes; else, when the latch is unset, set the minimum size and suspend on the
200 ms settle timer; else fall through to `win.show()` on the window captured
at line 95 (there is no `destroyed` re-check on this resumption). -/
def loadAfterContentEval (p : PopupView) (hasChildNodes : Bool) : ContResult :=
  if !hasChildNodes then
    { state := (destroyFn p).1, calledShow := false, awaitsSettle := false }
  else if !p.usingPreferredSize then
    { state := setSize p { width := some minWidth, height := some minHeight }
      calledShow := false
      awaitsSettle := true }
  else
    { state := { p with browserWindow :=
        p.browserWindow.map (fun w => { w with shown := true }) }
      calledShow := true
      awaitsSettle := false }

/-- The continuation of `load` after the settle timer fires (popup.ts lines
123-127), up to the `queryPreferredSize` suspension: re-check `destroyed` and
abort, else proceed into the polling measurement. -/
def loadAfterSettle (p : PopupView) : Option PopupView :=
  if p.destroyed then none else some p

/-! ## Concrete fixtures used by witnesses and counterexamples -/

/-- A live 1000×700 parent/anchor window at screen position (100, 50). -/
def par0 : Window :=
  { bounds := { x := 100, y := 50, w := 1000, h := 700 },
    isDestroyed := false, wcDestroyed := false, devToolsOpened := false, shown := true }

/-- The freshly created popup window: hidden, 25×25, no devtools. -/
def win0 : Window :=
  { bounds := { x := 0, y := 0, w := 25, h := 25 },
    isDestroyed := false, wcDestroyed := false, devToolsOpened := false, shown := false }

/-- A freshly constructed popup: anchor `par0`, trigger offset (10, 20). -/
def p0 : PopupView :=
  mkPopupView (some par0) (some par0) { x := 10, y := 20, width := 30, height := 20 } win0

/-! ## Theorems -/

/-- C1: for every rectangle passed to `setSize` (width or height possibly
missing, zero, or out of range), given live `browserWindow` and `parent`
references, the applied width is `Math.floor` of the requested width (missing
treated as 0 by `rect.width || 0`) clamped to `[25, 800]`, the applied height
is `Math.floor` of the requested height clamped to `[25, 600]`, and both land
inside those ranges. -/
theorem setSize_applies_clamped_floor (p : PopupView) (rect : PartialRect)
    (win par : Window) (hw : p.browserWindow = some win) (hp : p.parent = some par) :
    ∃ win2, (setSize p rect).browserWindow = some win2 ∧
      win2.bounds.w = Int.floor (min maxWidth (max (rect.width.getD 0) minWidth)) ∧
      win2.bounds.h = Int.floor (min maxHeight (max (rect.height.getD 0) minHeight)) ∧
      25 ≤ win2.bounds.w ∧ win2.bounds.w ≤ 800 ∧
      25 ≤ win2.bounds.h ∧ win2.bounds.h ≤ 600 := by
  have hwlo : (25 : ℤ) ≤ Int.floor (min maxWidth (max (rect.width.getD 0) minWidth)) := by
    refine Int.le_floor.mpr ?_
    push_cast
    exact le_min (by norm_num [maxWidth]) (le_max_right _ _)
  have hwhi : Int.floor (min maxWidth (max (rect.width.getD 0) minWidth)) ≤ 800 := by
    have h1 : min maxWidth (max (rect.width.getD 0) minWidth) ≤ ((800 : ℤ) : ℚ) := by
      refine le_trans (min_le_left _ _) ?_
      norm_num [maxWidth]
    exact le_trans (Int.floor_le_floor h1) (by norm_num)
  have hhlo : (25 : ℤ) ≤ Int.floor (min maxHeight (max (rect.height.getD 0) minHeight)) := by
    refine Int.le_floor.mpr ?_
    push_cast
    exact le_min (by norm_num [maxHeight]) (le_max_right _ _)
  have hhhi : Int.floor (min maxHeight (max (rect.height.getD 0) minHeight)) ≤ 600 := by
    have h1 : min maxHeight (max (rect.height.getD 0) minHeight) ≤ ((600 : ℤ) : ℚ) := by
      refine le_trans (min_le_left _ _) ?_
      norm_num [maxHeight]
    exact le_trans (Int.floor_le_floor h1) (by norm_num)
  simp only [setSize, hw, hp]
  exact ⟨_, rfl, rfl, rfl, hwlo, hwhi, hhlo, hhhi⟩

/-- C1 witness: for the scenario of a measured content box 900×10, the
applied size is exactly 800×25, and the general theorem instantiates. -/
theorem setSize_applies_clamped_floor_witness :
    ((setSize p0 { width := some 900, height := some 10 }).browserWindow.map
        (fun w => (w.bounds.w, w.bounds.h)) = some (800, 25)) ∧
    (∃ win2, (setSize p0 { width := some 900, height := some 10 }).browserWindow = some win2 ∧
      win2.bounds.w = Int.floor (min maxWidth (max ((some (900 : ℚ)).getD 0) minWidth)) ∧
      win2.bounds.h = Int.floor (min maxHeight (max ((some (10 : ℚ)).getD 0) minHeight)) ∧
      25 ≤ win2.bounds.w ∧ win2.bounds.w ≤ 800 ∧
      25 ≤ win2.bounds.h ∧ win2.bounds.h ≤ 600) :=
  ⟨by decide, setSize_applies_clamped_floor p0 _ win0 par0 rfl rfl⟩

/-- C6: after `updatePosition`, given a live window and a non-null
anchor-bounds snapshot, the window origin is
`floor(anchorWindowBounds + anchorRect)` and its size is unchanged,
regardless of the prior position. -/
theorem updatePosition_sets_origin (p : PopupView) (win : Window) (ab : IRect)
    (hw : p.browserWindow = some win) (ha : p.anchorWindowBounds = some ab) :
    ∃ win2, (updatePosition p).browserWindow = some win2 ∧
      win2.bounds.x = Int.floor ((ab.x : ℚ) + p.anchorRect.x) ∧
      win2.bounds.y = Int.floor ((ab.y : ℚ) + p.anchorRect.y) ∧
      win2.bounds.w = win.bounds.w ∧ win2.bounds.h = win.bounds.h := by
  simp only [updatePosition, hw, ha]
  exact ⟨_, rfl, rfl, rfl, rfl, rfl⟩

/-- C6 witness: anchor bounds origin (100, 50) and offset origin (10, 20)
yield popup origin (110, 70), with the size untouched. -/
theorem updatePosition_sets_origin_witness :
    ((updatePosition p0).browserWindow.map (fun w => w.bounds) =
      some { x := 110, y := 70, w := 25, h := 25 }) ∧
    (∃ win2, (updatePosition p0).browserWindow = some win2 ∧
      win2.bounds.x = Int.floor ((par0.bounds.x : ℚ) + p0.anchorRect.x) ∧
      win2.bounds.y = Int.floor ((par0.bounds.y : ℚ) + p0.anchorRect.y) ∧
      win2.bounds.w = win0.bounds.w ∧ win2.bounds.h = win0.bounds.h) :=
  ⟨by norm_num [updatePosition, p0, mkPopupView, initAnchorWindowBounds, par0, win0],
    updatePosition_sets_origin p0 win0 par0.bounds rfl rfl⟩

/-- Helper: an effective `destroy` (flag not yet set) always ends with the
flag set and both references cleared, whatever the liveness of parent and
window. -/
theorem destroyFn_state (p : PopupView) (hd : p.destroyed = false) :
    (destroyFn p).1 = { p with destroyed := true, parent := none, browserWindow := none } := by
  cases p with
  | mk bw pr ab ar de ups =>
    simp only at hd
    subst hd
    cases pr <;> cases bw <;> simp [destroyFn] <;> split <;> rfl

/-- Helper: after any call to `destroy`, the flag is set. -/
theorem destroyFn_fst_destroyed (p : PopupView) : (destroyFn p).1.destroyed = true := by
  by_cases hd : p.destroyed = true
  · simp [destroyFn, hd]
  · rw [destroyFn_state p (by simpa using hd)]

/-- Helper: the effect trace of an effective `destroy` on a live parent and
a live window: parent listener removed, devtools closed when open, window
listener removed, window destroyed. -/
theorem destroyFn_effects (p : PopupView) (par win : Window) (hd : p.destroyed = false)
    (hp : p.parent = some par) (hpd : par.isDestroyed = false)
    (hw : p.browserWindow = some win) (hwd : win.isDestroyed = false) :
    (destroyFn p).2 =
      [Eff.offParentClosed] ++
        ((if !win.wcDestroyed && win.devToolsOpened then [Eff.closeDevTools] else []) ++
          [Eff.offWindowClosed, Eff.destroyWindow]) := by
  cases p with
  | mk bw pr ab ar de ups =>
    simp only at hd hp hw
    subst hd; subst hp; subst hw
    simp [destroyFn, hpd, hwd]

/-- C3: a first effective `destroy` on a live parent and a live window sets
the flag, removes the parent `closed` listener exactly once, removes the
window `closed` listener exactly once, destroys the owned window exactly
once, and clears both references; any later call returns immediately with no
state change and no effects. -/
theorem destroy_once_then_noop (p : PopupView) (par win : Window)
    (hd : p.destroyed = false) (hp : p.parent = some par) (hpd : par.isDestroyed = false)
    (hw : p.browserWindow = some win) (hwd : win.isDestroyed = false) :
    (destroyFn p).1.destroyed = true ∧
    (destroyFn p).1.parent = none ∧
    (destroyFn p).1.browserWindow = none ∧
    (destroyFn p).2.count Eff.offParentClosed = 1 ∧
    (destroyFn p).2.count Eff.offWindowClosed = 1 ∧
    (destroyFn p).2.count Eff.destroyWindow = 1 ∧
    destroyFn (destroyFn p).1 = ((destroyFn p).1, []) := by
  have hs := destroyFn_state p hd
  have he := destroyFn_effects p par win hd hp hpd hw hwd
  refine ⟨by rw [hs], by rw [hs], by rw [hs], ?_, ?_, ?_, ?_⟩
  · rw [he]; by_cases hdev : (!win.wcDestroyed && win.devToolsOpened) = true <;>
      simp [hdev, List.count_append, List.count_cons]
  · rw [he]; by_cases hdev : (!win.wcDestroyed && win.devToolsOpened) = true <;>
      simp [hdev, List.count_append, List.count_cons]
  · rw [he]; by_cases hdev : (!win.wcDestroyed && win.devToolsOpened) = true <;>
      simp [hdev, List.count_append, List.count_cons]
  · rw [hs]; simp [destroyFn]

/-- C3 witness: instantiated on a freshly constructed popup with live parent
and live window. -/
theorem destroy_once_then_noop_witness :
    (destroyFn p0).1.destroyed = true ∧
    (destroyFn p0).1.parent = none ∧
    (destroyFn p0).1.browserWindow = none ∧
    (destroyFn p0).2.count Eff.offParentClosed = 1 ∧
    (destroyFn p0).2.count Eff.offWindowClosed = 1 ∧
    (destroyFn p0).2.count Eff.destroyWindow = 1 ∧
    destroyFn (destroyFn p0).1 = ((destroyFn p0).1, []) :=
  destroy_once_then_noop p0 par0 win0 rfl rfl rfl rfl rfl

/-- `p0` with devtools open on the popup window. -/
def pDev : PopupView := { p0 with browserWindow := some { win0 with devToolsOpened := true } }

/-- C5: `maybeClose` is a no-op while the popup window is live with devtools
open (whatever the focus state), a no-op when no window of the application
holds focus, and otherwise destroys the popup. -/
theorem maybeClose_policy (p : PopupView) (f : Bool) :
    (devtoolsGuard p = true → maybeClose p f = (p, [])) ∧
    (devtoolsGuard p = false → f = false → maybeClose p f = (p, [])) ∧
    (devtoolsGuard p = false → f = true →
      maybeClose p f = destroyFn p ∧ (maybeClose p f).1.destroyed = true) := by
  refine ⟨fun h1 => by simp [maybeClose, h1],
    fun h1 h2 => by simp [maybeClose, h1, h2],
    fun h1 h2 => ⟨by simp [maybeClose, h1, h2], ?_⟩⟩
  simp [maybeClose, h1, h2, destroyFn_fst_destroyed]

/-- C5 witness: devtools open on a blur → unchanged; focus outside the
application → unchanged; devtools closed and focus inside → destroyed. -/
theorem maybeClose_policy_witness :
    maybeClose pDev true = (pDev, []) ∧
    maybeClose p0 false = (p0, []) ∧
    (maybeClose p0 true).1.destroyed = true :=
  ⟨(maybeClose_policy pDev true).1 (by decide),
    (maybeClose_policy p0 false).2.1 (by decide) rfl,
    ((maybeClose_policy p0 true).2.2 (by decide) rfl).2⟩

/-- C2 exhibit: the resumption of the polling measurement re-checks only
`destroyed` (popup.ts line 262), not the latch.  Run: the polling guard
passes on a fresh popup and its measurement script is put in flight; a live
`preferred-size-changed` (300×300) arrives while it is suspended, setting the
latch and sizing the popup to width 300; the script then resolves with a
stale 100×100 and the resumption overwrites the live size with width 100. -/
theorem qps_stale_measurement_overwrites_latched_size :
    qpsGuardPasses p0 = true ∧
    (updatePreferredSize p0 { width := 300, height := 300 }).usingPreferredSize = true ∧
    ((updatePreferredSize p0 { width := 300, height := 300 }).browserWindow.map
      (fun w => w.bounds.w) = some 300) ∧
    ((qpsResume (updatePreferredSize p0 { width := 300, height := 300 })
        { width := 100, height := 100 }).browserWindow.map
      (fun w => w.bounds.w) = some 100) := by
  refine ⟨by decide, by decide, ?_, ?_⟩ <;>
    norm_num [updatePreferredSize, qpsResume, setSize, updatePosition, p0, mkPopupView,
      initAnchorWindowBounds, par0, win0, maxWidth, maxHeight, minWidth, minHeight]

/-- C4 exhibit: the resumption after the content-presence script (popup.ts
line 111) has no `destroyed` re-check.  Run: while the script is suspended a
live preferred-size notification sets the latch, then the popup is destroyed
(e.g. blur); the script then resolves with content present, the latched
branch is taken, and `win.show()` executes on the captured, already destroyed
window instead of aborting. -/
theorem load_resumption_shows_destroyed_popup :
    (destroyFn (updatePreferredSize p0 { width := 300, height := 300 })).1.destroyed = true ∧
    (loadAfterContentEval
      (destroyFn (updatePreferredSize p0 { width := 300, height := 300 })).1
      true).calledShow = true := by
  constructor
  · exact destroyFn_fst_destroyed _
  · norm_num [loadAfterContentEval, destroyFn, updatePreferredSize, setSize, updatePosition,
      p0, mkPopupView, initAnchorWindowBounds, par0, win0, maxWidth, maxHeight,
      minWidth, minHeight]

/-- C7 counterexample: the `preferred-size-changed` handler (popup.ts lines
268-273) contains no `show()` call: on a live, not-yet-shown popup it leaves
the window hidden (the popup is shown only by the `load` pipeline). -/
theorem updatePreferredSize_does_not_show :
    p0.browserWindow.map Window.shown = some false ∧
    (updatePreferredSize p0 { width := 300, height := 300 }).usingPreferredSize = true ∧
    ((updatePreferredSize p0 { width := 300, height := 300 }).browserWindow.map
      Window.shown = some false) := by
  refine ⟨by decide, by decide, ?_⟩
  norm_num [updatePreferredSize, setSize, updatePosition, p0, mkPopupView,
    initAnchorWindowBounds, par0, win0, maxWidth, maxHeight, minWidth, minHeight]

/-- C7 (amended): on a live preferred-size notification the handler sets the
one-way latch, applies the notified size clamped and floored, repositions
from the anchor snapshot, and leaves the window's shown state unchanged (it
never shows the popup; showing is done by the load pipeline). -/
theorem updatePreferredSize_spec (p : PopupView) (size : Size) (win par : Window) (ab : IRect)
    (hw : p.browserWindow = some win) (hp : p.parent = some par)
    (ha : p.anchorWindowBounds = some ab) :
    (updatePreferredSize p size).usingPreferredSize = true ∧
    ∃ win2, (updatePreferredSize p size).browserWindow = some win2 ∧
      win2.bounds.w = Int.floor (min maxWidth (max size.width minWidth)) ∧
      win2.bounds.h = Int.floor (min maxHeight (max size.height minHeight)) ∧
      win2.bounds.x = Int.floor ((ab.x : ℚ) + p.anchorRect.x) ∧
      win2.bounds.y = Int.floor ((ab.y : ℚ) + p.anchorRect.y) ∧
      win2.shown = win.shown := by
  simp only [updatePreferredSize, setSize, updatePosition, hw, hp, ha]
  exact ⟨trivial, _, rfl, rfl, rfl, rfl, rfl, rfl⟩

/-- C7 (amended) witness: instantiated on a fresh popup and a 300×300
notification. -/
theorem updatePreferredSize_spec_witness :
    (updatePreferredSize p0 { width := 300, height := 300 }).usingPreferredSize = true ∧
    ∃ win2, (updatePreferredSize p0 { width := 300, height := 300 }).browserWindow = some win2 ∧
      win2.bounds.w = Int.floor (min maxWidth (max (300 : ℚ) minWidth)) ∧
      win2.bounds.h = Int.floor (min maxHeight (max (300 : ℚ) minHeight)) ∧
      win2.bounds.x = Int.floor ((par0.bounds.x : ℚ) + p0.anchorRect.x) ∧
      win2.bounds.y = Int.floor ((par0.bounds.y : ℚ) + p0.anchorRect.y) ∧
      win2.shown = win0.shown :=
  updatePreferredSize_spec p0 { width := 300, height := 300 } win0 par0 par0.bounds rfl rfl rfl

/-- C8: when the content-presence check resolves with an empty body, the
continuation destroys the popup synchronously (the flag is set within the
same resumption), performs no `show()`, and schedules no further work. -/
theorem load_empty_content_destroys (p : PopupView) :
    (loadAfterContentEval p false).state.destroyed = true ∧
    (loadAfterContentEval p false).calledShow = false ∧
    (loadAfterContentEval p false).awaitsSettle = false :=
  ⟨destroyFn_fst_destroyed p, rfl, rfl⟩

/-- Helper: `setSize` never writes the anchor-bounds snapshot. -/
theorem setSize_pres_awb (p : PopupView) (r : PartialRect) :
    (setSize p r).anchorWindowBounds = p.anchorWindowBounds := by
  cases hb : p.browserWindow <;> cases hp : p.parent <;> simp [setSize, hb, hp]

/-- Helper: `updatePosition` never writes the anchor-bounds snapshot. -/
theorem updatePosition_pres_awb (p : PopupView) :
    (updatePosition p).anchorWindowBounds = p.anchorWindowBounds := by
  cases hb : p.browserWindow <;> cases ha : p.anchorWindowBounds <;>
    simp [updatePosition, hb, ha]

/-- Helper: `destroy` never writes the anchor-bounds snapshot. -/
theorem destroyFn_pres_awb (p : PopupView) :
    (destroyFn p).1.anchorWindowBounds = p.anchorWindowBounds := by
  by_cases hd : p.destroyed = true
  · simp [destroyFn, hd]
  · rw [destroyFn_state p (by simpa using hd)]

/-- C9: the anchor-bounds snapshot is computed exactly once at construction
(anchor's bounds if the anchor is present, else the parent's bounds, else
null) and no operation of the instance ever writes it afterwards. -/
theorem anchorWindowBounds_snapshot_invariant :
    (∀ aw pr ar w, (mkPopupView (some aw) pr ar w).anchorWindowBounds = some aw.bounds) ∧
    (∀ pw ar w, (mkPopupView none (some pw) ar w).anchorWindowBounds = some pw.bounds) ∧
    (∀ ar w, (mkPopupView none none ar w).anchorWindowBounds = none) ∧
    (∀ p r, (setSize p r).anchorWindowBounds = p.anchorWindowBounds) ∧
    (∀ p, (updatePosition p).anchorWindowBounds = p.anchorWindowBounds) ∧
    (∀ p s, (updatePreferredSize p s).anchorWindowBounds = p.anchorWindowBounds) ∧
    (∀ p, (destroyFn p).1.anchorWindowBounds = p.anchorWindowBounds) ∧
    (∀ p f, (maybeClose p f).1.anchorWindowBounds = p.anchorWindowBounds) ∧
    (∀ p m, (queryPreferredSize p m).anchorWindowBounds = p.anchorWindowBounds) ∧
    (∀ p b, (loadAfterContentEval p b).state.anchorWindowBounds = p.anchorWindowBounds) := by
  refine ⟨fun aw pr ar w => rfl, fun pw ar w => rfl, fun ar w => rfl,
    setSize_pres_awb, updatePosition_pres_awb, fun p s => ?_, destroyFn_pres_awb,
    fun p f => ?_, fun p m => ?_, fun p b => ?_⟩
  · exact (updatePosition_pres_awb _).trans (setSize_pres_awb _ _)
  · unfold maybeClose
    split
    · rfl
    · split
      · rfl
      · exact destroyFn_pres_awb p
  · unfold queryPreferredSize qpsResume
    split
    · split
      · rfl
      · exact (updatePosition_pres_awb _).trans (setSize_pres_awb _ _)
    · rfl
  · unfold loadAfterContentEval
    split
    · exact destroyFn_pres_awb p
    · split
      · exact setSize_pres_awb _ _
      · cases hb : p.browserWindow <;> simp [hb]

/-- C10: after an effective `destroy`, `setSize` and `updatePosition` are
exact no-ops (their reference guards fail because `destroy` cleared
`browserWindow` and `parent`), and a late preferred-size notification only
flips the `usingPreferredSize` latch without touching any other state. -/
theorem post_destroy_ops_inert (p : PopupView) (hd : p.destroyed = false) :
    (∀ r, setSize (destroyFn p).1 r = (destroyFn p).1) ∧
    updatePosition (destroyFn p).1 = (destroyFn p).1 ∧
    (∀ s, updatePreferredSize (destroyFn p).1 s =
      { (destroyFn p).1 with usingPreferredSize := true }) := by
  rw [destroyFn_state p hd]
  exact ⟨fun r => rfl, rfl, fun s => rfl⟩

/-- C10 witness: instantiated on a fresh popup that then gets destroyed. -/
theorem post_destroy_ops_inert_witness :
    (∀ r, setSize (destroyFn p0).1 r = (destroyFn p0).1) ∧
    updatePosition (destroyFn p0).1 = (destroyFn p0).1 ∧
    (∀ s, updatePreferredSize (destroyFn p0).1 s =
      { (destroyFn p0).1 with usingPreferredSize := true }) :=
  post_destroy_ops_inert p0 rfl

end Popup
